import Mathlib

/-!
Verification development for the codemonkey-games-launcher repository.

The server side (a Deno web app) manages a game library: one directory per
game under a games root.  The frontend (coverflow UI plus a gamepad
subsystem) navigates and launches the games.  This file gives a shallow
embedding of the data model and the operations the specification talks
about, translated from the source, and proves or refutes the spec claims.

Modelling conventions:
- The filesystem visible to the server is a value: the list of immediate
  children of the games root, together with the stat outcome and content
  of each child's thumbnail.png.
- URL pathnames are represented by their list of slash-separated segments,
  exactly the value of pathname.split on the slash character in the
  source; a pathname starting with the literal prefix used by a route
  corresponds to a condition on the first segments.
- JavaScript falsy defaulting (x or default) on optional string fields is
  modelled by jsOrString on Option String.
-/

namespace CMG

/-! ## Game library store (server, listGames) -/

/-- One immediate child of the games root directory, as returned by the
directory scan: its name and whether it is a directory. -/
structure DirEntry where
  name : String
  isDirectory : Bool
deriving DecidableEq, Repr

/-- The state of the games root visible to the server.
thumbStat models the stat call on the child's thumbnail.png:
none means stat threw, some b means stat succeeded with isFile = b.
thumbBytes models the content of thumbnail.png when it is a regular
file. -/
structure LibraryFS where
  entries : List DirEntry
  thumbStat : String → Option Bool
  thumbBytes : String → Option (List Nat)

/-- One catalog entry produced by listGames (public fields). -/
structure GameEntry where
  id : String
  name : String
  urlPath : String
  hasThumbnail : Bool
deriving DecidableEq, Repr

/-- Character-level lower-casing of a string (the toLowerCase calls in the
source; ASCII, which is all the comparisons here depend on). -/
def toLowerStr (s : String) : String := ⟨s.data.map Char.toLower⟩

/-- Display name derivation: id.replace with hyphen and underscore mapped
to a space (each matched character of the regex class is replaced by one
space). -/
def displayName (id : String) : String :=
  ⟨id.data.map (fun c => if c = '-' ∨ c = '_' then ' ' else c)⟩

/-- The catalog entry built for one directory named id, from the body of
the listGames loop: hasThumbnail is the stat result when stat succeeds
(isFile) and false when stat throws. -/
def mkGameEntry (fs : LibraryFS) (id : String) : GameEntry :=
  { id := id
    name := displayName id
    urlPath := "/games/" ++ id ++ "/"
    hasThumbnail := match fs.thumbStat id with
      | some b => b
      | none => false }

/-- listGames: skip non-directory children, build one entry per directory,
then sort by display name with the comparator a.name.localeCompare b.name.
The locale comparison is abstracted as a boolean relation le on strings
(le a b meaning localeCompare a b is nonpositive); the sort is the stable
sort of the runtime, modelled by mergeSort. -/
def listGames (le : String → String → Bool) (fs : LibraryFS) : List GameEntry :=
  let entries := (fs.entries.filter (·.isDirectory)).map (fun d => mkGameEntry fs d.name)
  entries.mergeSort (fun a b => le a.name b.name)

/-! ## Ingestion pipeline (saveZipToDir root resolution) -/

/-- JavaScript (x or default) on an optional string field: undefined and
the empty string are falsy. -/
def jsOrString (x : Option String) (d : String) : String :=
  match x with
  | none => d
  | some s => if s = "" then d else s

/-- Paths are lists of components; join appends one component. -/
abbrev FsPath := List String

/-- Base-directory resolution inside the extracted zip, from saveZipToDir:
start at the extraction root; if the top level holds exactly one entry,
descend into it; then lower-case the hint (defaulting to root) and if it
is dist or docs, descend one more level into that name. -/
def saveZipBase (extractRoot : FsPath) (topLevel : List String)
    (subdirHint : Option String) : FsPath :=
  let base := if topLevel.length = 1 then extractRoot ++ [topLevel.headD ""] else extractRoot
  let hint := toLowerStr (jsOrString subdirHint "root")
  if hint = "dist" ∨ hint = "docs" then base ++ [hint] else base

/-- The effective root before the subdirectory hint is applied: the sole
top-level entry when there is exactly one, the extraction root
otherwise. -/
def effectiveRoot (extractRoot : FsPath) (topLevel : List String) : FsPath :=
  if topLevel.length = 1 then extractRoot ++ [topLevel.headD ""] else extractRoot

/-! ## HTTP API: thumbnail upload and game deletion -/

/-- True when the pathname starts with the games API route: on the
split-segment representation, pathname.startsWith of the literal
slash api slash games slash prefix holds exactly when the first three
segments are empty, api, games and a fourth segment exists. -/
def startsWithApiGames (segs : List String) : Bool :=
  segs.take 3 = ["", "api", "games"] && 4 ≤ segs.length

/-- True when the pathname ends with the thumbnail suffix: on segments,
pathname.endsWith of slash thumbnail holds exactly when the last segment
is the word thumbnail and the pathname has at least two segments. -/
def endsWithThumbnail (segs : List String) : Bool :=
  2 ≤ segs.length && segs.getLastD "" = "thumbnail"

/-- The id both branches extract: pathname.split at slash, element 3. -/
def routeGameId (segs : List String) : String := segs.getD 3 ""

/-- The stat-and-isDirectory test both branches run on the target
path: true exactly when the games root has a directory child with that
name (stat throwing, or the child being a non-directory, both end in the
catch branch). -/
def isGameDir (fs : LibraryFS) (id : String) : Bool :=
  fs.entries.any (fun e => e.name = id && e.isDirectory)

/-- Effect of Deno.writeFile of the body bytes at the target's
thumbnail.png: the thumbnail now exists as a regular file with exactly
those bytes; everything else is unchanged. -/
def writeThumb (fs : LibraryFS) (id : String) (body : List Nat) : LibraryFS :=
  { entries := fs.entries
    thumbStat := fun n => if n = id then some true else fs.thumbStat n
    thumbBytes := fun n => if n = id then some body else fs.thumbBytes n }

/-- Effect of Deno.remove recursive on the game directory id: the child
disappears from the root, together with its thumbnail. -/
def removeGameDir (fs : LibraryFS) (id : String) : LibraryFS :=
  { entries := fs.entries.filter (fun e => e.name ≠ id)
    thumbStat := fun n => if n = id then none else fs.thumbStat n
    thumbBytes := fun n => if n = id then none else fs.thumbBytes n }

/-- The two games sub-routes of handleApi, in source order: the POST
thumbnail branch and then the DELETE branch.  The result is none when
neither branch matches (the request falls through to static serving),
otherwise the HTTP status and the filesystem after the request.  The
earlier branches of handleApi (exact paths under api slash games with GET
and the two add-game endpoints) can never match a pathname with four or
more segments starting with the games prefix, so they are omitted
here. -/
def handleApiGames (fs : LibraryFS) (method : String) (segs : List String)
    (body : List Nat) : Option (Nat × LibraryFS) :=
  if startsWithApiGames segs && endsWithThumbnail segs && method = "POST" then
    let id := routeGameId segs
    if isGameDir fs id then some (200, writeThumb fs id body)
    else some (404, fs)
  else if startsWithApiGames segs && method = "DELETE" then
    let id := routeGameId segs
    if isGameDir fs id then some (200, removeGameDir fs id)
    else some (404, fs)
  else none

/-! ## GitHub ingestion endpoint (handleApi, from-github branch) -/

/-- A character matched by the regex dot: anything but a line
terminator. -/
def dotChar (c : Char) : Bool :=
  c ≠ '\n' && c ≠ '\r' && c ≠ ' ' && c ≠ ' '

/-- Lazy match of the trailing capture group of the repo regex: the
shortest nonempty dot-run after which either the literal dot git suffix
or the end of input follows; returns the captured repo-name
characters. -/
def matchRepoName : List Char → Option (List Char)
  | [] => none
  | c :: rest =>
    if dotChar c then
      if rest = ['.', 'g', 'i', 't'] ∨ rest = [] then some [c]
      else
        match matchRepoName rest with
        | some p => some (c :: p)
        | none => none
    else none

/-- Lazy match of the owner capture group followed by a slash and the
repo-name group: the shortest nonempty dot-run works first, growing on
backtracking, exactly the engine's order for the lazy quantifier. -/
def matchOwnerRepo : List Char → Option (List Char × List Char)
  | [] => none
  | c :: rest =>
    if dotChar c then
      let here : Option (List Char × List Char) :=
        match rest with
        | '/' :: rest2 => (matchRepoName rest2).map (fun rn => ([c], rn))
        | _ => none
      match here with
      | some r => some r
      | none =>
        match matchOwnerRepo rest with
        | some (o, rn) => some (c :: o, rn)
        | none => none
    else none

/-- Match of the whole repo regex anchored at the current position: the
literal github dot com prefix (the seventh character is a regex dot, so
any non-terminator character), a slash, then the two capture groups. -/
def matchGithubAt : List Char → Option (List Char × List Char)
  | 'g' :: 'i' :: 't' :: 'h' :: 'u' :: 'b' :: c :: 'c' :: 'o' :: 'm' :: '/' :: rest =>
    if dotChar c then matchOwnerRepo rest else none
  | _ => none

/-- Leftmost search: try each start position from the left, as
String.prototype.match does for an unanchored pattern. -/
def searchGithub : List Char → Option (List Char × List Char)
  | [] => none
  | c :: rest =>
    match matchGithubAt (c :: rest) with
    | some r => some r
    | none => searchGithub rest

/-- The repo-URL pattern match of the from-github branch, giving the
owner and repo-name captures. -/
def matchGithub (repo : String) : Option (String × String) :=
  (searchGithub repo.data).map (fun p => (⟨p.1⟩, ⟨p.2⟩))

/-- A character kept verbatim by the id slug: lower-case ASCII letter or
digit. -/
def isSlugChar (c : Char) : Bool :=
  ('a' ≤ c && c ≤ 'z') || ('0' ≤ c && c ≤ '9')

/-- Replace every maximal run of non-alphanumeric characters with a
single hyphen (the first regex replace of the id derivation); the flag
records whether the previous character was inside such a run. -/
def collapseRuns : Bool → List Char → List Char
  | _, [] => []
  | inRun, c :: rest =>
    if isSlugChar c then c :: collapseRuns false rest
    else if inRun then collapseRuns true rest
    else '-' :: collapseRuns true rest

/-- Strip leading and trailing hyphens (the second regex replace). -/
def trimHyphens (l : List Char) : List Char :=
  ((l.dropWhile (· = '-')).reverse.dropWhile (· = '-')).reverse

/-- The id derivation shared by both add-game endpoints: lower-case,
collapse non-alphanumeric runs to hyphens, trim hyphens. -/
def slugify (s : String) : String :=
  ⟨trimHyphens (collapseRuns false (s.data.map Char.toLower))⟩

/-- The codeload archive URL built for an owner, repo name and branch. -/
def codeloadUrl (owner repoName branch : String) : String :=
  "https://codeload.github.com/" ++ owner ++ "/" ++ repoName ++
    "/zip/refs/heads/" ++ branch

/-- JSON body of the from-github request; absent fields are none (other
falsy JSON values of these fields behave like the empty string and are
not modelled separately). -/
structure GithubReq where
  repo : Option String
  branch : Option String
  subdir : Option String
  name : Option String

/-- Observable outcome of the from-github branch: HTTP status, the id in
the success body, the URL fetched if any, and the arguments handed to
saveZipToDir when extraction is reached (bytes, target id, subdir
hint). -/
structure GithubResult where
  status : Nat
  respId : Option String
  fetchedUrl : Option String
  extracted : Option (List Nat × String × String)
deriving DecidableEq, Repr

/-- The from-github branch of handleApi.  The network is an oracle from
URL to the downloaded bytes, none meaning the response was not ok. -/
def handleFromGithub (req : GithubReq) (fetchOracle : String → Option (List Nat)) :
    GithubResult :=
  match req.repo with
  | none => ⟨400, none, none, none⟩
  | some repo =>
    if repo = "" then ⟨400, none, none, none⟩
    else
      match matchGithub repo with
      | none => ⟨400, none, none, none⟩
      | some (owner, repoName) =>
        let useBranch := jsOrString req.branch "main"
        let zipUrl := codeloadUrl owner repoName useBranch
        match fetchOracle zipUrl with
        | none => ⟨502, none, some zipUrl, none⟩
        | some zipBytes =>
          let id := slugify (jsOrString req.name repoName)
          ⟨200, some id, some zipUrl, some (zipBytes, id, jsOrString req.subdir "root")⟩

/-! ## Button mapping persistence (GamepadManager save and load) -/

/-- One logical button slot: physical gamepad button index, keyboard key
and legacy key code. -/
structure BtnMap where
  gamepadButton : Nat
  keyboardKey : String
  keyCode : Nat
deriving DecidableEq, Repr

/-- The dpad group of the mapping. -/
structure DpadGroup where
  up : BtnMap
  down : BtnMap
  left : BtnMap
  right : BtnMap
deriving DecidableEq, Repr

/-- The face group in the current schema. -/
structure FaceGroup where
  btnBottom : BtnMap
  btnRight : BtnMap
  btnLeft : BtnMap
  btnTop : BtnMap
deriving DecidableEq, Repr

/-- The shoulder group. -/
structure ShoulderGroup where
  leftShoulder : BtnMap
  rightShoulder : BtnMap
  leftTrigger : BtnMap
  rightTrigger : BtnMap
deriving DecidableEq, Repr

/-- The special group. -/
structure SpecialGroup where
  select : BtnMap
  start : BtnMap
  leftStick : BtnMap
  rightStick : BtnMap
  home : BtnMap
deriving DecidableEq, Repr

/-- A full mapping in the current schema. -/
structure Mapping where
  dpad : DpadGroup
  face : FaceGroup
  shoulder : ShoulderGroup
  special : SpecialGroup
deriving DecidableEq, Repr

/-- The face object of a stored (JSON) mapping: it may carry the current
names, the legacy names north east south west, or a mixture; absent keys
are none. -/
structure StoredFace where
  btnBottom : Option BtnMap
  btnRight : Option BtnMap
  btnLeft : Option BtnMap
  btnTop : Option BtnMap
  north : Option BtnMap
  east : Option BtnMap
  south : Option BtnMap
  west : Option BtnMap
deriving DecidableEq, Repr

/-- A stored mapping blob as parsed back from browser-local storage. -/
structure StoredMapping where
  dpad : DpadGroup
  face : StoredFace
  shoulder : ShoulderGroup
  special : SpecialGroup
deriving DecidableEq, Repr

/-- The default mapping literal of the GamepadManager constructor. -/
def defaultMapping : Mapping :=
  { dpad :=
      { up := ⟨12, "ArrowUp", 38⟩
        down := ⟨13, "ArrowDown", 40⟩
        left := ⟨14, "ArrowLeft", 37⟩
        right := ⟨15, "ArrowRight", 39⟩ }
    face :=
      { btnBottom := ⟨0, " ", 32⟩
        btnRight := ⟨1, "c", 67⟩
        btnLeft := ⟨2, "c", 67⟩
        btnTop := ⟨3, " ", 32⟩ }
    shoulder :=
      { leftShoulder := ⟨4, "q", 81⟩
        rightShoulder := ⟨5, "e", 69⟩
        leftTrigger := ⟨6, "r", 82⟩
        rightTrigger := ⟨7, "t", 84⟩ }
    special :=
      { select := ⟨8, "Backspace", 8⟩
        start := ⟨9, "Enter", 13⟩
        leftStick := ⟨10, "f", 70⟩
        rightStick := ⟨11, "g", 71⟩
        home := ⟨16, "h", 72⟩ } }

/-- JSON.stringify of a current-schema mapping: the face object carries
exactly the four current names. -/
def saveMapping (m : Mapping) : StoredMapping :=
  { dpad := m.dpad
    face :=
      { btnBottom := some m.face.btnBottom
        btnRight := some m.face.btnRight
        btnLeft := some m.face.btnLeft
        btnTop := some m.face.btnTop
        north := none, east := none, south := none, west := none }
    shoulder := m.shoulder
    special := m.special }

/-- loadMapping: parse the stored blob (a deep copy of the default when
nothing is stored), then migrate old face-button keys to the new names
when one of the legacy keys is present, falling back to the default slot
for absent legacy keys. -/
def loadMapping (saved : Option StoredMapping) : StoredMapping :=
  let mapping := saved.getD (saveMapping defaultMapping)
  let f := mapping.face
  let needsMigration := f.north.isSome || f.east.isSome || f.south.isSome || f.west.isSome
  if needsMigration then
    { mapping with
      face :=
        { btnTop := some (f.north.getD defaultMapping.face.btnTop)
          btnRight := some (f.east.getD defaultMapping.face.btnRight)
          btnBottom := some (f.south.getD defaultMapping.face.btnBottom)
          btnLeft := some (f.west.getD defaultMapping.face.btnLeft)
          north := none, east := none, south := none, west := none } }
  else mapping

/-! ## Launcher frontend: catalog focus -/

/-- The frontend module state the focus logic touches: the in-memory
games list and the focused index (a JavaScript number, so an integer
here). -/
structure LauncherState where
  games : List GameEntry
  focusedIndex : Int

/-- focusIndex: no-op on an empty list, otherwise clamp the requested
index into the list range before storing it (the optional launch does not
change this state). -/
def focusIndex (st : LauncherState) (i : Int) : LauncherState :=
  if st.games.length = 0 then st
  else { st with focusedIndex := max 0 (min ((st.games.length : Int) - 1) i) }

/-- deleteGame on the frontend: nothing happens unless the user confirmed
and the DELETE request succeeded; then the entry is spliced out, the
focused index is pulled back when it fell off the end, and the re-render
ends in a focusIndex call on the current index. -/
def deleteGameFrontend (st : LauncherState) (gameIndex : Nat)
    (confirmed resOk : Bool) : LauncherState :=
  if !confirmed then st
  else if !resOk then st
  else
    let games2 := st.games.eraseIdx gameIndex
    let fi :=
      if (games2.length : Int) ≤ st.focusedIndex then max 0 ((games2.length : Int) - 1)
      else st.focusedIndex
    focusIndex { games := games2, focusedIndex := fi } fi

/-- The bounds invariant of the focused index. -/
def focusInv (st : LauncherState) : Prop :=
  0 ≤ st.focusedIndex ∧ (st.games ≠ [] → st.focusedIndex < st.games.length)

/-! ## Gamepad subsystem: per-frame input processing -/

/-- The four logical button groups of the mapping. -/
inductive Group
  | dpad
  | face
  | shoulder
  | special
deriving DecidableEq, Repr

/-- The DOM and manager-mode facts a frame reads: body playing class, the
three overlays, the testing toggle, the visible button counts of the two
navigable overlays, and whether a game sits at the focused index. -/
structure DomEnv where
  playing : Bool
  osdOpen : Bool
  gameMenuOpen : Bool
  configuratorOpen : Bool
  testingMode : Bool
  osdButtonCount : Nat
  gameMenuButtonCount : Nat
  focusedGameExists : Bool
deriving DecidableEq, Repr

/-- Testing is active only when the toggle is on and the configurator is
open. -/
def isTestingActive (dom : DomEnv) : Bool := dom.testingMode && dom.configuratorOpen

/-- Inputs are swallowed for every controller while testing is active;
the controller index argument of the source is ignored. -/
def shouldSwallowFor (dom : DomEnv) : Bool := isTestingActive dom

/-- An overlay is open when the OSD or the game menu is. -/
def isAnyOverlayOpen (dom : DomEnv) : Bool := dom.osdOpen || dom.gameMenuOpen

/-- Digital state derived from one analog stick. -/
structure StickDigital where
  left : Bool
  right : Bool
  up : Bool
  down : Bool
deriving DecidableEq, Repr

/-- A value stored in the per-controller buttonState dictionary: a plain
boolean, or the object a stick entry holds. -/
inductive BSVal
  | flag (b : Bool)
  | stick (s : StickDigital)
deriving DecidableEq, Repr

/-- JavaScript truthiness of a dictionary read: absent is falsy, a
boolean is itself, an object is truthy. -/
def truthy : Option BSVal → Bool
  | none => false
  | some (.flag b) => b
  | some (.stick _) => true

/-- The mutable manager state a frame touches for one controller: the
buttonState dictionary and the overlay focus bookkeeping. -/
structure ManagerState where
  flags : String → Option BSVal
  osdFocusIndex : Int
  gameMenuFocusIndex : Int
  wasOSDOpen : Bool
  wasGameMenuOpen : Bool

/-- Write one buttonState entry. -/
def setFlag (st : ManagerState) (k : String) (v : BSVal) : ManagerState :=
  { st with flags := fun x => if x = k then some v else st.flags x }

/-- The buttonState a freshly added gamepad starts with. -/
def initFlags : String → Option BSVal := fun k =>
  if k = "dpadLeft" ∨ k = "dpadRight" ∨ k = "dpadUp" ∨ k = "dpadDown" ∨
      k = "faceSouth" ∨ k = "faceNorth" ∨ k = "faceEast" ∨ k = "faceWest" ∨
      k = "osdCombo" then
    some (.flag false)
  else if k = "leftStick" ∨ k = "rightStick" then
    some (.stick ⟨false, false, false, false⟩)
  else none

/-- Manager state right after construction and addGamepad. -/
def initManagerState : ManagerState := ⟨initFlags, -1, -1, false, false⟩

/-- A navigation direction. -/
inductive Dir
  | up
  | down
  | left
  | right
deriving DecidableEq, Repr

/-- The externally observable actions a frame can perform: a synthetic
keyboard event toward the game iframe, configurator close, launcher
navigation and launch, the game menu, OSD toggling and navigation,
overlay item activation, and the fullscreen toggle of the home button. -/
inductive Action
  | keyEvent (kind : String) (key : String) (keyCode : Nat)
  | closeConfigurator
  | launcherNav (d : Dir)
  | launchFocused
  | showGameMenu
  | toggleOSD (b : Bool)
  | hideGameMenu
  | osdNav (d : Dir)
  | gameMenuNav (d : Dir)
  | activateOSDItem
  | activateGameMenuItem
  | fullscreenToggle
deriving DecidableEq, Repr

/-- dispatchKeyboardEvent: only dispatches while playing with no overlay
open; a space key additionally synthesizes a keypress on keydown. -/
def dispatchKeyboardEvent (dom : DomEnv) (kind : String) (bm : BtnMap) : List Action :=
  if !dom.playing then []
  else if isAnyOverlayOpen dom then []
  else if bm.keyboardKey = " " && kind = "keydown" then
    [.keyEvent kind bm.keyboardKey bm.keyCode, .keyEvent "keypress" bm.keyboardKey bm.keyCode]
  else [.keyEvent kind bm.keyboardKey bm.keyCode]

/-- handleSpecialActions: only the home button of the special group does
anything, toggling fullscreen. -/
def handleSpecialActions (g : Group) (bname : String) : List Action :=
  if g = Group.special && bname = "home" then [.fullscreenToggle] else []

/-- A detected edge of one logical button. -/
inductive Edge
  | rising
  | falling
deriving DecidableEq, Repr

/-- Result of the loop body of processButtonGroup for one button: the
edge it detected, the actions it performed, the state it left, and
whether it returned early out of the group loop. -/
structure ButtonOutcome where
  edge : Option Edge
  actions : List Action
  state : ManagerState
  earlyReturn : Bool

/-- The loop body of processButtonGroup for one mapped button.  The edge
test compares this frame's pressed boolean against the frame-start
snapshot.  On a rising edge: swallowed while testing (state still
updated); the configurator-close branch for face btnRight latches
faceEast and returns early, skipping the snapshot update; with an
overlay open, dpad, face and shoulder groups only latch; otherwise a
keydown is dispatched and special actions run.  On a falling edge the
overlay branch unlatches and otherwise a keyup is dispatched.  Finally
the snapshot entry is set to this frame's pressed value. -/
def processButtonOne (dom : DomEnv) (g : Group) (bname : String) (bm : BtnMap)
    (buttons : List Bool) (prev st : ManagerState) : ButtonOutcome :=
  if bm.gamepadButton < buttons.length then
    let wasPressed := truthy (prev.flags bname)
    let isPressed := buttons.getD bm.gamepadButton false
    let swallow := shouldSwallowFor dom
    if isPressed && !wasPressed then
      if swallow then
        ⟨some .rising, [], setFlag st bname (.flag isPressed), false⟩
      else if dom.configuratorOpen && (g = Group.face && bname = "btnRight") then
        ⟨some .rising, [.closeConfigurator], setFlag st "faceEast" (.flag true), true⟩
      else if isAnyOverlayOpen dom &&
          (g = Group.dpad || g = Group.face || g = Group.shoulder) then
        let st1 := if g = Group.face && bname = "btnBottom" then
            setFlag st "faceSouth" (.flag true) else st
        let st2 := if g = Group.face && bname = "btnRight" then
            setFlag st1 "faceEast" (.flag true) else st1
        ⟨some .rising, [], setFlag st2 bname (.flag isPressed), false⟩
      else
        ⟨some .rising,
          dispatchKeyboardEvent dom "keydown" bm ++ handleSpecialActions g bname,
          setFlag st bname (.flag isPressed), false⟩
    else if !isPressed && wasPressed then
      if swallow then
        ⟨some .falling, [], setFlag st bname (.flag isPressed), false⟩
      else if isAnyOverlayOpen dom &&
          (g = Group.dpad || g = Group.face || g = Group.shoulder) then
        let st1 := if g = Group.face && bname = "btnBottom" then
            setFlag st "faceSouth" (.flag false) else st
        let st2 := if g = Group.face && bname = "btnRight" then
            setFlag st1 "faceEast" (.flag false) else st1
        ⟨some .falling, [], setFlag st2 bname (.flag isPressed), false⟩
      else
        ⟨some .falling, dispatchKeyboardEvent dom "keyup" bm,
          setFlag st bname (.flag isPressed), false⟩
    else
      ⟨none, [], setFlag st bname (.flag isPressed), false⟩
  else
    ⟨none, [], st, false⟩

/-- The buttons of one group, in the insertion order the loop visits. -/
def groupButtons (m : Mapping) : Group → List (String × BtnMap)
  | .dpad =>
    [("up", m.dpad.up), ("down", m.dpad.down), ("left", m.dpad.left), ("right", m.dpad.right)]
  | .face =>
    [("btnBottom", m.face.btnBottom), ("btnRight", m.face.btnRight),
      ("btnLeft", m.face.btnLeft), ("btnTop", m.face.btnTop)]
  | .shoulder =>
    [("leftShoulder", m.shoulder.leftShoulder), ("rightShoulder", m.shoulder.rightShoulder),
      ("leftTrigger", m.shoulder.leftTrigger), ("rightTrigger", m.shoulder.rightTrigger)]
  | .special =>
    [("select", m.special.select), ("start", m.special.start),
      ("leftStick", m.special.leftStick), ("rightStick", m.special.rightStick),
      ("home", m.special.home)]

/-- The group loop, with the early return of the configurator-close
branch cutting the iteration short. -/
def processButtonList (dom : DomEnv) (g : Group) (buttons : List Bool)
    (prev : ManagerState) :
    List (String × BtnMap) → ManagerState → List Action × ManagerState
  | [], st => ([], st)
  | (bn, bm) :: rest, st =>
    let r := processButtonOne dom g bn bm buttons prev st
    if r.earlyReturn then (r.actions, r.state)
    else
      let rec2 := processButtonList dom g buttons prev rest r.state
      (r.actions ++ rec2.1, rec2.2)

/-- processButtonGroup for one group of the current mapping. -/
def processButtonGroup (dom : DomEnv) (m : Mapping) (g : Group) (buttons : List Bool)
    (prev st : ManagerState) : List Action × ManagerState :=
  processButtonList dom g buttons prev (groupButtons m g) st

/-- applyDeadzone with the default deadzone of fifteen hundredths. -/
def applyDeadzone (v : Rat) : Rat := if 15 / 100 < |v| then v else 0

/-- handleLauncherNavigation: only left and right move the catalog
focus. -/
def handleLauncherNavigation (d : Dir) : List Action :=
  match d with
  | .left => [.launcherNav Dir.left]
  | .right => [.launcherNav Dir.right]
  | _ => []

/-- handleOSDNavigation over the visible OSD buttons, wrapping. -/
def handleOSDNavigation (dom : DomEnv) (st : ManagerState) (d : Dir) :
    List Action × ManagerState :=
  if dom.osdButtonCount = 0 then ([], st)
  else
    let n : Int := dom.osdButtonCount
    let idx0 := if st.osdFocusIndex < 0 then 0 else st.osdFocusIndex
    let idx1 := match d with
      | .up | .left => (idx0 - 1 + n) % n
      | .down | .right => (idx0 + 1) % n
    ([.osdNav d], { st with osdFocusIndex := idx1 })

/-- handleGameMenuNavigation over the visible game-menu buttons,
wrapping. -/
def handleGameMenuNavigation (dom : DomEnv) (st : ManagerState) (d : Dir) :
    List Action × ManagerState :=
  if dom.gameMenuButtonCount = 0 then ([], st)
  else
    let n : Int := dom.gameMenuButtonCount
    let idx0 := if st.gameMenuFocusIndex < 0 then 0 else st.gameMenuFocusIndex
    let idx1 := match d with
      | .up | .left => (idx0 - 1 + n) % n
      | .down | .right => (idx0 + 1) % n
    ([.gameMenuNav d], { st with gameMenuFocusIndex := idx1 })

/-- activateFocusedOSDItem: click the focused visible OSD button. -/
def activateFocusedOSDItem (dom : DomEnv) (st : ManagerState) :
    List Action × ManagerState :=
  if dom.osdButtonCount = 0 then ([], st)
  else
    let st1 := if st.osdFocusIndex < 0 then { st with osdFocusIndex := 0 } else st
    ([.activateOSDItem], st1)

/-- activateFocusedGameMenuItem: click the focused visible menu
button. -/
def activateFocusedGameMenuItem (dom : DomEnv) (st : ManagerState) :
    List Action × ManagerState :=
  if dom.gameMenuButtonCount = 0 then ([], st)
  else
    let st1 := if st.gameMenuFocusIndex < 0 then { st with gameMenuFocusIndex := 0 } else st
    ([.activateGameMenuItem], st1)

/-- routeNavigation: game menu first, then OSD, then the launcher. -/
def routeNavigation (dom : DomEnv) (st : ManagerState) (d : Dir) :
    List Action × ManagerState :=
  if dom.gameMenuOpen then handleGameMenuNavigation dom st d
  else if dom.osdOpen then handleOSDNavigation dom st d
  else (handleLauncherNavigation d, st)

/-- initOSDFocus: reset the OSD focus when out of range, to the first
visible button (minus one when there is none). -/
def initOSDFocus (dom : DomEnv) (st : ManagerState) : ManagerState :=
  if dom.osdButtonCount = 0 then { st with osdFocusIndex := -1 }
  else if st.osdFocusIndex < 0 ∨ (dom.osdButtonCount : Int) ≤ st.osdFocusIndex then
    { st with osdFocusIndex := 0 }
  else st

/-- initGameMenuFocus, the analogue for the game menu. -/
def initGameMenuFocus (dom : DomEnv) (st : ManagerState) : ManagerState :=
  if dom.gameMenuButtonCount = 0 then { st with gameMenuFocusIndex := -1 }
  else if st.gameMenuFocusIndex < 0 ∨
      (dom.gameMenuButtonCount : Int) ≤ st.gameMenuFocusIndex then
    { st with gameMenuFocusIndex := 0 }
  else st

/-- processAnalogToDigital for one stick: while swallowed the digital
state is recorded and nothing is routed; otherwise each axis crossing
the half threshold against the previously stored object routes one
navigation step.  The previous entry is read from the live dictionary;
a non-object value there yields no pressed flags. -/
def processAnalogToDigital (dom : DomEnv) (stick : Rat × Rat) (stickName : String)
    (st : ManagerState) : List Action × ManagerState :=
  let leftPressed := decide (stick.1 < -(1 / 2 : Rat))
  let rightPressed := decide ((1 / 2 : Rat) < stick.1)
  let upPressed := decide (stick.2 < -(1 / 2 : Rat))
  let downPressed := decide ((1 / 2 : Rat) < stick.2)
  if shouldSwallowFor dom then
    ([], setFlag st stickName (.stick ⟨leftPressed, rightPressed, upPressed, downPressed⟩))
  else
    let prevState := match st.flags stickName with
      | some (.stick s) => s
      | _ => ⟨false, false, false, false⟩
    let r1 := if leftPressed && !prevState.left then routeNavigation dom st Dir.left
      else ([], st)
    let r2 := if rightPressed && !prevState.right then routeNavigation dom r1.2 Dir.right
      else ([], r1.2)
    let r3 := if upPressed && !prevState.up then routeNavigation dom r2.2 Dir.up
      else ([], r2.2)
    let r4 := if downPressed && !prevState.down then routeNavigation dom r3.2 Dir.down
      else ([], r3.2)
    (r1.1 ++ r2.1 ++ r3.1 ++ r4.1,
      setFlag r4.2 stickName (.stick ⟨leftPressed, rightPressed, upPressed, downPressed⟩))

/-- processAnalogSticks: nothing below four axes, else both sticks after
the deadzone. -/
def processAnalogSticks (dom : DomEnv) (axes : List Rat) (st : ManagerState) :
    List Action × ManagerState :=
  if axes.length < 4 then ([], st)
  else
    let leftStick := (applyDeadzone (axes.getD 0 0), applyDeadzone (axes.getD 1 0))
    let rightStick := (applyDeadzone (axes.getD 2 0), applyDeadzone (axes.getD 3 0))
    let r1 := processAnalogToDigital dom leftStick "leftStick" st
    let r2 := processAnalogToDigital dom rightStick "rightStick" r1.2
    (r1.1 ++ r2.1, r2.2)

/-- The pressed test on an optional physical button: a missing index is
falsy. -/
def pressedAt (buttons : List Bool) (i : Nat) : Bool := buttons.getD i false

/-- processLauncherControls: skipped while playing, while an overlay is
open and while swallowed; then dpad left and right navigate, face bottom
launches, start opens the game menu for the focused game. -/
def processLauncherControls (dom : DomEnv) (m : Mapping) (buttons : List Bool)
    (prev st : ManagerState) : List Action × ManagerState :=
  if dom.playing then ([], st)
  else if isAnyOverlayOpen dom then ([], st)
  else if shouldSwallowFor dom then ([], st)
  else
    let r1 :=
      if pressedAt buttons m.dpad.left.gamepadButton && !truthy (prev.flags "dpadLeft") then
        (handleLauncherNavigation Dir.left, setFlag st "dpadLeft" (.flag true))
      else if !pressedAt buttons m.dpad.left.gamepadButton then
        ([], setFlag st "dpadLeft" (.flag false))
      else ([], st)
    let r2 :=
      if pressedAt buttons m.dpad.right.gamepadButton && !truthy (prev.flags "dpadRight") then
        (handleLauncherNavigation Dir.right, setFlag r1.2 "dpadRight" (.flag true))
      else if !pressedAt buttons m.dpad.right.gamepadButton then
        ([], setFlag r1.2 "dpadRight" (.flag false))
      else ([], r1.2)
    let r3 :=
      if pressedAt buttons m.face.btnBottom.gamepadButton && !truthy (prev.flags "faceSouth") then
        ([.launchFocused], setFlag r2.2 "faceSouth" (.flag true))
      else if !pressedAt buttons m.face.btnBottom.gamepadButton then
        ([], setFlag r2.2 "faceSouth" (.flag false))
      else ([], r2.2)
    let r4 :=
      if pressedAt buttons m.special.start.gamepadButton && !truthy (prev.flags "startPressed") then
        ((if dom.focusedGameExists then [.showGameMenu] else []),
          setFlag r3.2 "startPressed" (.flag true))
      else if !pressedAt buttons m.special.start.gamepadButton then
        ([], setFlag r3.2 "startPressed" (.flag false))
      else ([], r3.2)
    (r1.1 ++ r2.1 ++ r3.1 ++ r4.1, r4.2)

/-- processOSDControls: skipped while swallowed; with the OSD closed the
select plus dpad-down combo edge opens it; with it open, up and down
navigate, face bottom activates, face right closes. -/
def processOSDControls (dom : DomEnv) (m : Mapping) (buttons : List Bool)
    (prev st : ManagerState) : List Action × ManagerState :=
  if shouldSwallowFor dom then ([], st)
  else
    let selectPressed := pressedAt buttons m.special.select.gamepadButton
    let downPressed := pressedAt buttons m.dpad.down.gamepadButton
    if !dom.osdOpen then
      if selectPressed && downPressed && !truthy (prev.flags "osdCombo") then
        ([.toggleOSD true], setFlag st "osdCombo" (.flag true))
      else if !(selectPressed && downPressed) then
        ([], setFlag st "osdCombo" (.flag false))
      else ([], st)
    else
      let r1 :=
        if pressedAt buttons m.dpad.up.gamepadButton && !truthy (prev.flags "dpadUp") then
          let n := handleOSDNavigation dom st Dir.up
          (n.1, setFlag n.2 "dpadUp" (.flag true))
        else if !pressedAt buttons m.dpad.up.gamepadButton then
          ([], setFlag st "dpadUp" (.flag false))
        else ([], st)
      let r2 :=
        if pressedAt buttons m.dpad.down.gamepadButton && !truthy (prev.flags "dpadDown") then
          let n := handleOSDNavigation dom r1.2 Dir.down
          (n.1, setFlag n.2 "dpadDown" (.flag true))
        else if !pressedAt buttons m.dpad.down.gamepadButton then
          ([], setFlag r1.2 "dpadDown" (.flag false))
        else ([], r1.2)
      let r3 :=
        if pressedAt buttons m.face.btnBottom.gamepadButton && !truthy (prev.flags "faceSouth") then
          let n := activateFocusedOSDItem dom r2.2
          (n.1, setFlag n.2 "faceSouth" (.flag true))
        else if !pressedAt buttons m.face.btnBottom.gamepadButton then
          ([], setFlag r2.2 "faceSouth" (.flag false))
        else ([], r2.2)
      let r4 :=
        if pressedAt buttons m.face.btnRight.gamepadButton && !truthy (prev.flags "faceEast") then
          ([.toggleOSD false], setFlag r3.2 "faceEast" (.flag true))
        else if !pressedAt buttons m.face.btnRight.gamepadButton then
          ([], setFlag r3.2 "faceEast" (.flag false))
        else ([], r3.2)
      (r1.1 ++ r2.1 ++ r3.1 ++ r4.1, r4.2)

/-- processGameMenuControls: skipped while swallowed or with the menu
closed; up and down navigate, face bottom activates and latches, face
right or start closes and latches. -/
def processGameMenuControls (dom : DomEnv) (m : Mapping) (buttons : List Bool)
    (prev st : ManagerState) : List Action × ManagerState :=
  if shouldSwallowFor dom then ([], st)
  else if !dom.gameMenuOpen then ([], st)
  else
    let r1 :=
      if pressedAt buttons m.dpad.up.gamepadButton && !truthy (prev.flags "gmDpadUp") then
        let n := handleGameMenuNavigation dom st Dir.up
        (n.1, setFlag n.2 "gmDpadUp" (.flag true))
      else if !pressedAt buttons m.dpad.up.gamepadButton then
        ([], setFlag st "gmDpadUp" (.flag false))
      else ([], st)
    let r2 :=
      if pressedAt buttons m.dpad.down.gamepadButton && !truthy (prev.flags "gmDpadDown") then
        let n := handleGameMenuNavigation dom r1.2 Dir.down
        (n.1, setFlag n.2 "gmDpadDown" (.flag true))
      else if !pressedAt buttons m.dpad.down.gamepadButton then
        ([], setFlag r1.2 "gmDpadDown" (.flag false))
      else ([], r1.2)
    let r3 :=
      if pressedAt buttons m.face.btnBottom.gamepadButton && !truthy (prev.flags "gmFaceSouth") then
        let n := activateFocusedGameMenuItem dom r2.2
        (n.1, setFlag (setFlag n.2 "gmFaceSouth" (.flag true)) "faceSouth" (.flag true))
      else if !pressedAt buttons m.face.btnBottom.gamepadButton then
        ([], setFlag (setFlag r2.2 "gmFaceSouth" (.flag false)) "faceSouth" (.flag false))
      else ([], r2.2)
    let bPressed := pressedAt buttons m.face.btnRight.gamepadButton
    let sPressed := pressedAt buttons m.special.start.gamepadButton
    let closePressed := bPressed || sPressed
    let r4 :=
      if closePressed && !truthy (prev.flags "gmClose") then
        let s1 := setFlag r3.2 "gmClose" (.flag true)
        let s2 := if bPressed then setFlag s1 "faceEast" (.flag true) else s1
        let s3 := if sPressed then setFlag s2 "startPressed" (.flag true) else s2
        ([.hideGameMenu], s3)
      else if !closePressed then
        let s1 := setFlag r3.2 "gmClose" (.flag false)
        let s2 := if !bPressed then setFlag s1 "faceEast" (.flag false) else s1
        let s3 := if !sPressed then setFlag s2 "startPressed" (.flag false) else s2
        ([], s3)
      else ([], r3.2)
    (r1.1 ++ r2.1 ++ r3.1 ++ r4.1, r4.2)

/-- One processInputs iteration for one controller: snapshot the button
state, run the overlay open-edge focus initialization (an internal
focus-index update, driven by overlay visibility rather than by any
button press), then the four button groups, the analog sticks and the
three control routines, all against the frame-start snapshot. -/
def processInputs (dom : DomEnv) (m : Mapping) (buttons : List Bool) (axes : List Rat)
    (st : ManagerState) : List Action × ManagerState :=
  let prev := st
  let st0 := if dom.osdOpen && !st.wasOSDOpen then initOSDFocus dom st else st
  let st1 := { st0 with wasOSDOpen := dom.osdOpen }
  let st2 := if dom.gameMenuOpen && !st1.wasGameMenuOpen then initGameMenuFocus dom st1
    else st1
  let st3 := { st2 with wasGameMenuOpen := dom.gameMenuOpen }
  let rD := processButtonGroup dom m Group.dpad buttons prev st3
  let rF := processButtonGroup dom m Group.face buttons prev rD.2
  let rS := processButtonGroup dom m Group.shoulder buttons prev rF.2
  let rP := processButtonGroup dom m Group.special buttons prev rS.2
  let rA := processAnalogSticks dom axes rP.2
  let rL := processLauncherControls dom m buttons prev rA.2
  let rO := processOSDControls dom m buttons prev rL.2
  let rG := processGameMenuControls dom m buttons prev rO.2
  (rD.1 ++ rF.1 ++ rS.1 ++ rP.1 ++ rA.1 ++ rL.1 ++ rO.1 ++ rG.1, rG.2)

/-- Frame-by-frame run of the loop body for one mapped button: each
frame supplies the environment and the physical pressed value at the
button's mapped index, and the stored snapshot is carried between
frames exactly as the dictionary entry is.  This projects the group loop
onto one button; the projection is faithful whenever nothing else writes
the button's snapshot entry, which holds for every mapped name except
leftStick and rightStick (overwritten by the analog digitizer when four
axes are reported) and except across the configurator-close early
return. -/
def processButtonFrames (g : Group) (bname : String) (bm : BtnMap) :
    ManagerState → List (DomEnv × Bool) → List (Option Edge)
  | _, [] => []
  | st, (dom, pressed) :: rest =>
    let buttons := List.replicate bm.gamepadButton false ++ [pressed]
    let r := processButtonOne dom g bname bm buttons st st
    r.edge :: processButtonFrames g bname bm r.state rest

/-- The per-pair edge of two consecutive pressed values. -/
def edgeOf (was isP : Bool) : Option Edge :=
  if isP && !was then some .rising else if !isP && was then some .falling else none

/-- The stateless recomputation of all edges from the raw pressed
sequence: each frame is compared against the actual previous frame. -/
def edgeSpec (was : Bool) : List Bool → List (Option Edge)
  | [] => []
  | b :: rest => edgeOf was b :: edgeSpec b rest

/-- Number of false-to-true transitions of the pressed sequence. -/
def countRises (was : Bool) : List Bool → Nat
  | [] => 0
  | b :: rest => (if b && !was then 1 else 0) + countRises b rest

/-- Number of true-to-false transitions of the pressed sequence. -/
def countFalls (was : Bool) : List Bool → Nat
  | [] => 0
  | b :: rest => (if !b && was then 1 else 0) + countFalls b rest

/-! ## Scaffolding used to state the testing-mode property -/

/-- The snapshot update one swallowed button performs: nothing for an
unmapped physical index, else the pressed value. -/
def updOne (buttons : List Bool) (s : ManagerState) (p : String × BtnMap) : ManagerState :=
  if p.2.gamepadButton < buttons.length then
    setFlag s p.1 (.flag (buttons.getD p.2.gamepadButton false))
  else s

/-- The digital reading of one deadzoned stick against the half
threshold. -/
def stickVal (stick : Rat × Rat) : StickDigital :=
  ⟨decide (stick.1 < -(1 / 2 : Rat)), decide ((1 / 2 : Rat) < stick.1),
    decide (stick.2 < -(1 / 2 : Rat)), decide ((1 / 2 : Rat) < stick.2)⟩

/-- The stick-entry updates a swallowed analog pass performs. -/
def analogUpdSwallow (axes : List Rat) (s : ManagerState) : ManagerState :=
  if axes.length < 4 then s
  else
    setFlag
      (setFlag s "leftStick"
        (.stick (stickVal (applyDeadzone (axes.getD 0 0), applyDeadzone (axes.getD 1 0)))))
      "rightStick"
      (.stick (stickVal (applyDeadzone (axes.getD 2 0), applyDeadzone (axes.getD 3 0))))

/-- The overlay open-edge bookkeeping a frame starts with. -/
def frameInit (dom : DomEnv) (st : ManagerState) : ManagerState :=
  let st0 := if dom.osdOpen && !st.wasOSDOpen then initOSDFocus dom st else st
  let st1 := { st0 with wasOSDOpen := dom.osdOpen }
  let st2 := if dom.gameMenuOpen && !st1.wasGameMenuOpen then initGameMenuFocus dom st1
    else st1
  { st2 with wasGameMenuOpen := dom.gameMenuOpen }

end CMG

/-! ## Concrete states used by witnesses -/

namespace CMG

/-- A small concrete library: two game directories and one stray file;
space-runner has a regular thumbnail file, puzzle-box has a stat error. -/
def demoFS : LibraryFS :=
  { entries := [⟨"space-runner", true⟩, ⟨"notes.txt", false⟩, ⟨"puzzle_box", true⟩]
    thumbStat := fun n => if n = "space-runner" then some true else none
    thumbBytes := fun n => if n = "space-runner" then some [1, 2, 3] else none }

end CMG

/-! ## Theorems -/

namespace CMG

/-- Claim C1: for every state of the library root, listGames returns
exactly one entry per immediate subdirectory (non-directories skipped),
sorted by display name under the locale comparator (assumed transitive
and total, which localeCompare is), and with hasThumbnail true exactly
when thumbnail.png exists and is a regular file; a stat failure counts as
absence. -/
theorem listGames_catalog (le : String → String → Bool)
    (htrans : ∀ a b c, le a b = true → le b c = true → le a c = true)
    (htotal : ∀ a b, (le a b || le b a) = true)
    (fs : LibraryFS) :
    ((listGames le fs).map (·.id)).Perm
      (((fs.entries.filter (·.isDirectory)).map (·.name))) ∧
    (listGames le fs).Pairwise (fun a b => le a.name b.name = true) ∧
    (∀ e ∈ listGames le fs,
      (e.hasThumbnail = true ↔ fs.thumbStat e.id = some true) ∧
      (fs.thumbStat e.id = none → e.hasThumbnail = false)) := by
  refine ⟨?_, ?_, ?_⟩
  · have h1 : (listGames le fs).Perm
        ((fs.entries.filter (·.isDirectory)).map (fun d => mkGameEntry fs d.name)) :=
      List.mergeSort_perm _ _
    have h2 := h1.map (·.id)
    simpa [Function.comp, mkGameEntry] using h2
  · exact List.sorted_mergeSort
      (fun (a b c : GameEntry) => htrans a.name b.name c.name)
      (fun (a b : GameEntry) => htotal a.name b.name) _
  · intro e he
    rw [listGames, List.mem_mergeSort] at he
    rcases List.mem_map.mp he with ⟨d, _, rfl⟩
    simp only [mkGameEntry]
    constructor
    · cases h : fs.thumbStat d.name with
      | none => simp [h]
      | some b => cases b <;> simp [h]
    · intro h
      simp [h]

/-- Witness for C1 at a concrete comparator and filesystem. -/
theorem listGames_catalog_witness :
    (((listGames (fun a b => decide (a ≤ b)) demoFS).map (·.id)).Perm
      (((demoFS.entries.filter (·.isDirectory)).map (·.name)))) := by
  exact (listGames_catalog (fun a b => decide (a ≤ b))
    (by intro a b c h1 h2; simp_all; exact le_trans h1 h2)
    (by intro a b; rcases le_total a b with h | h <;> simp [h])
    demoFS).1

/-- Claim C2: in saveZipToDir, a sole top-level entry becomes the
effective root before the hint is applied, and a dist or docs hint makes
the copy source descend one more level into that name; any other hint
value (or none) leaves the copy source at the effective root. -/
theorem saveZipBase_resolution (extractRoot : FsPath) (topLevel : List String)
    (e : String) :
    saveZipBase extractRoot topLevel (some "dist") =
      effectiveRoot extractRoot topLevel ++ ["dist"] ∧
    saveZipBase extractRoot topLevel (some "docs") =
      effectiveRoot extractRoot topLevel ++ ["docs"] ∧
    saveZipBase extractRoot topLevel none = effectiveRoot extractRoot topLevel ∧
    saveZipBase extractRoot topLevel (some "root") = effectiveRoot extractRoot topLevel ∧
    effectiveRoot extractRoot [e] = extractRoot ++ [e] := by
  have h1 : toLowerStr "dist" = "dist" := by decide
  have h2 : toLowerStr "docs" = "docs" := by decide
  have h3 : toLowerStr "root" = "root" := by decide
  refine ⟨?_, ?_, ?_, ?_, ?_⟩ <;>
    simp [saveZipBase, effectiveRoot, jsOrString, h1, h2, h3]

/-- Claim C3: on the delete route, an id that is not an existing game
directory yields 404 with the library unchanged, and an existing game
directory is removed with 200. -/
theorem deleteGame_route (fs : LibraryFS) (id : String) :
    (isGameDir fs id = false →
      handleApiGames fs "DELETE" ["", "api", "games", id] [] = some (404, fs)) ∧
    (isGameDir fs id = true →
      handleApiGames fs "DELETE" ["", "api", "games", id] [] =
        some (200, removeGameDir fs id)) := by
  constructor <;> intro h <;>
    simp [handleApiGames, startsWithApiGames, endsWithThumbnail, routeGameId, h]

/-- Witness for C3 on the concrete library. -/
theorem deleteGame_route_witness :
    handleApiGames demoFS "DELETE" ["", "api", "games", "nope"] [] = some (404, demoFS) ∧
    handleApiGames demoFS "DELETE" ["", "api", "games", "puzzle_box"] [] =
      some (200, removeGameDir demoFS "puzzle_box") := by
  constructor
  · exact (deleteGame_route demoFS "nope").1 (by decide)
  · exact (deleteGame_route demoFS "puzzle_box").2 (by decide)

/-- Claim C9: the DELETE branch matches every pathname that merely starts
with the games API prefix and always uses segment 3 as the id; in
particular a DELETE of the id's thumbnail sub-path removes the whole game
directory and answers 200 instead of being rejected. -/
theorem deleteGame_route_loose (fs : LibraryFS) (segs : List String) (id : String) :
    (startsWithApiGames segs = true →
      handleApiGames fs "DELETE" segs [] =
        some (if isGameDir fs (routeGameId segs) then
                (200, removeGameDir fs (routeGameId segs))
              else (404, fs))) ∧
    (isGameDir fs id = true →
      handleApiGames fs "DELETE" ["", "api", "games", id, "thumbnail"] [] =
        some (200, removeGameDir fs id)) := by
  constructor
  · intro h
    by_cases hth : endsWithThumbnail segs = true
    · by_cases hd : isGameDir fs (routeGameId segs) = true <;>
        simp [handleApiGames, h, hth, hd]
    · by_cases hd : isGameDir fs (routeGameId segs) = true <;>
        simp [handleApiGames, h, Bool.eq_false_iff.mpr hth, hd]
  · intro h
    simp [handleApiGames, startsWithApiGames, endsWithThumbnail, routeGameId, h]

/-- Witness for C9: deleting the thumbnail sub-path of an existing game
removes the game directory itself. -/
theorem deleteGame_route_loose_witness :
    handleApiGames demoFS "DELETE" ["", "api", "games", "space-runner", "thumbnail"] [] =
      some (200, removeGameDir demoFS "space-runner") := by
  exact (deleteGame_route_loose demoFS [] "space-runner").2 (by decide)

/-- Claim C10: for an existing game directory, the thumbnail POST stores
exactly the request body bytes as the game's thumbnail.png (whatever they
are, no PNG validation), answers 200, and a subsequent listGames reports
the game as having a thumbnail. -/
theorem thumbnail_upload (fs : LibraryFS) (id : String) (body : List Nat)
    (le : String → String → Bool) (hdir : isGameDir fs id = true) :
    handleApiGames fs "POST" ["", "api", "games", id, "thumbnail"] body =
      some (200, writeThumb fs id body) ∧
    (writeThumb fs id body).thumbBytes id = some body ∧
    (∃ e ∈ listGames le (writeThumb fs id body), e.id = id) ∧
    (∀ e ∈ listGames le (writeThumb fs id body), e.id = id → e.hasThumbnail = true) := by
  refine ⟨?_, by simp [writeThumb], ?_, ?_⟩
  · simp [handleApiGames, startsWithApiGames, endsWithThumbnail, routeGameId, hdir]
  · rcases List.any_eq_true.mp hdir with ⟨d, hd, hdp⟩
    refine ⟨mkGameEntry (writeThumb fs id body) d.name, ?_, ?_⟩
    · rw [listGames, List.mem_mergeSort]
      exact List.mem_map_of_mem _ (List.mem_filter.mpr ⟨hd, by simp_all⟩)
    · simp [mkGameEntry]
      simp_all
  · intro e he hid
    rw [listGames, List.mem_mergeSort] at he
    rcases List.mem_map.mp he with ⟨d, _, rfl⟩
    simp only [mkGameEntry] at hid ⊢
    simp [writeThumb, hid]

/-- Claim C4: the from-github endpoint answers 400 when the repo string
does not match the repo-URL pattern; on a match it fetches the codeload
URL for the requested branch, with main as the default for an absent or
empty branch field; a failed fetch answers 502 with no extraction
attempted, and a successful fetch answers 200 with the id. -/
theorem fromGithub_endpoint (req : GithubReq) (fetchOracle : String → Option (List Nat)) :
    (∀ r, req.repo = some r → r ≠ "" → matchGithub r = none →
      handleFromGithub req fetchOracle = ⟨400, none, none, none⟩) ∧
    (∀ r o n, req.repo = some r → r ≠ "" → matchGithub r = some (o, n) →
      ((req.branch = none ∨ req.branch = some "") →
        jsOrString req.branch "main" = "main") ∧
      (fetchOracle (codeloadUrl o n (jsOrString req.branch "main")) = none →
        handleFromGithub req fetchOracle =
          ⟨502, none, some (codeloadUrl o n (jsOrString req.branch "main")), none⟩) ∧
      (∀ bs, fetchOracle (codeloadUrl o n (jsOrString req.branch "main")) = some bs →
        handleFromGithub req fetchOracle =
          ⟨200, some (slugify (jsOrString req.name n)),
            some (codeloadUrl o n (jsOrString req.branch "main")),
            some (bs, slugify (jsOrString req.name n), jsOrString req.subdir "root")⟩)) := by
  constructor
  · intro r hr hne hm
    simp [handleFromGithub, hr, hne, hm]
  · intro r o n hr hne hm
    refine ⟨?_, ?_, ?_⟩
    · rintro (h | h) <;> simp [h, jsOrString]
    · intro hf
      simp [handleFromGithub, hr, hne, hm, hf]
    · intro bs hf
      simp [handleFromGithub, hr, hne, hm, hf]

/-- Witness for C4: a non-matching repo string gives 400; a matching one
with no branch field fetches the main-branch codeload URL, failing with
502 when the download fails and succeeding with 200 and the slug id when
it succeeds. -/
theorem fromGithub_endpoint_witness :
    handleFromGithub ⟨some "not-a-repo", none, none, none⟩ (fun _ => none) =
      ⟨400, none, none, none⟩ ∧
    handleFromGithub ⟨some "https://github.com/user/My Repo", none, none, none⟩
        (fun _ => none) =
      ⟨502, none, some (codeloadUrl "user" "My Repo" "main"), none⟩ ∧
    handleFromGithub ⟨some "https://github.com/user/My Repo", none, none, none⟩
        (fun _ => some [7]) =
      ⟨200, some "my-repo", some (codeloadUrl "user" "My Repo" "main"),
        some ([7], "my-repo", "root")⟩ := by
  refine ⟨?_, ?_, ?_⟩
  · exact (fromGithub_endpoint ⟨some "not-a-repo", none, none, none⟩ (fun _ => none)).1
      "not-a-repo" rfl (by decide) (by decide)
  · exact ((fromGithub_endpoint ⟨some "https://github.com/user/My Repo", none, none, none⟩
      (fun _ => none)).2 "https://github.com/user/My Repo" "user" "My Repo"
      rfl (by decide) (by decide)).2.1 rfl
  · have h := ((fromGithub_endpoint ⟨some "https://github.com/user/My Repo", none, none, none⟩
      (fun _ => some [7])).2 "https://github.com/user/My Repo" "user" "My Repo"
      rfl (by decide) (by decide)).2.2 [7] rfl
    rw [h]
    decide

/-- Claim C5: loading right after saving returns the stored mapping
unchanged (no migration fires on the current schema), and a stored legacy
mapping with old face-button names is migrated so the new names carry the
legacy entries, defaults filling only absent legacy keys; the other
groups are untouched. -/
theorem mapping_roundtrip_and_migration (m : Mapping) (sm : StoredMapping)
    (h : sm.face.north.isSome ∨ sm.face.east.isSome ∨
         sm.face.south.isSome ∨ sm.face.west.isSome) :
    loadMapping (some (saveMapping m)) = saveMapping m ∧
    ((loadMapping (some sm)).face.btnTop =
        some (sm.face.north.getD defaultMapping.face.btnTop) ∧
      (loadMapping (some sm)).face.btnRight =
        some (sm.face.east.getD defaultMapping.face.btnRight) ∧
      (loadMapping (some sm)).face.btnBottom =
        some (sm.face.south.getD defaultMapping.face.btnBottom) ∧
      (loadMapping (some sm)).face.btnLeft =
        some (sm.face.west.getD defaultMapping.face.btnLeft) ∧
      (loadMapping (some sm)).dpad = sm.dpad ∧
      (loadMapping (some sm)).shoulder = sm.shoulder ∧
      (loadMapping (some sm)).special = sm.special) := by
  have hm : (sm.face.north.isSome || sm.face.east.isSome ||
      sm.face.south.isSome || sm.face.west.isSome) = true := by
    rcases h with h | h | h | h <;> simp [h]
  constructor
  · simp [loadMapping, saveMapping]
  · simp [loadMapping, hm]

/-- Witness for C5: a legacy mapping whose north slot carries a custom
key is migrated to btnTop, while the absent east slot falls back to the
default btnRight. -/
theorem mapping_roundtrip_and_migration_witness :
    loadMapping (some (saveMapping defaultMapping)) = saveMapping defaultMapping ∧
    (loadMapping (some
        { dpad := defaultMapping.dpad
          face := { btnBottom := none, btnRight := none, btnLeft := none, btnTop := none
                    north := some ⟨3, "x", 88⟩, east := none, south := none, west := none }
          shoulder := defaultMapping.shoulder
          special := defaultMapping.special })).face.btnTop = some ⟨3, "x", 88⟩ := by
  have h := mapping_roundtrip_and_migration defaultMapping
    { dpad := defaultMapping.dpad
      face := { btnBottom := none, btnRight := none, btnLeft := none, btnTop := none
                north := some ⟨3, "x", 88⟩, east := none, south := none, west := none }
      shoulder := defaultMapping.shoulder
      special := defaultMapping.special }
    (Or.inl (by decide))
  exact ⟨h.1, by rw [h.2.1]; rfl⟩

/-- Helper: focusIndex preserves the bounds invariant. -/
theorem focusInv_focusIndex (st : LauncherState) (i : Int) (hinv : focusInv st) :
    focusInv (focusIndex st i) := by
  by_cases h : st.games.length = 0
  · simpa [focusIndex, h] using hinv
  · have hpos : (0 : Int) < st.games.length := by omega
    constructor
    · simp only [focusIndex, if_neg h]
      exact le_max_left _ _
    · intro _
      simp only [focusIndex, if_neg h]
      have hle : max 0 (min ((st.games.length : Int) - 1) i) ≤ (st.games.length : Int) - 1 :=
        max_le (by omega) (min_le_left _ _)
      omega

/-- Claim C8: focusIndex clamps the requested index into the list range
before use, and both focusIndex and a frontend game deletion preserve the
bounds invariant, so the focused index never leaves the range while the
list is non-empty. -/
theorem focusedIndex_bounds (st : LauncherState) (i : Int) (gameIndex : Nat)
    (confirmed resOk : Bool) (hinv : focusInv st) :
    (st.games ≠ [] →
      (focusIndex st i).focusedIndex = max 0 (min ((st.games.length : Int) - 1) i)) ∧
    focusInv (focusIndex st i) ∧
    focusInv (deleteGameFrontend st gameIndex confirmed resOk) := by
  refine ⟨?_, focusInv_focusIndex st i hinv, ?_⟩
  · intro hne
    have : st.games.length ≠ 0 := by
      have h2 := List.length_pos.mpr hne
      omega
    simp only [focusIndex, if_neg this]
  · rcases hinv with ⟨h0, hlt⟩
    cases confirmed with
    | false => exact ⟨h0, hlt⟩
    | true =>
      cases resOk with
      | false => exact ⟨h0, hlt⟩
      | true =>
        simp only [deleteGameFrontend, Bool.not_true, Bool.false_eq_true, if_false]
        apply focusInv_focusIndex
        refine ⟨?_, ?_⟩
        · dsimp only
          split
          · exact le_max_left _ _
          · exact h0
        · intro hne
          have hp : (0 : Int) < (st.games.eraseIdx gameIndex).length := by
            have := List.length_pos.mpr hne
            simpa using this
          dsimp only
          split
          · have hle : max 0 (((st.games.eraseIdx gameIndex).length : Int) - 1) ≤
                ((st.games.eraseIdx gameIndex).length : Int) - 1 :=
              max_le (by omega) le_rfl
            omega
          · rename_i hcond
            omega

/-- Witness for C8 on a concrete two-game state: navigating far right
clamps to the last index, and deleting the last game pulls the focus
back in range. -/
theorem focusedIndex_bounds_witness :
    (focusIndex ⟨[⟨"a", "a", "/games/a/", false⟩, ⟨"b", "b", "/games/b/", true⟩], 1⟩
      99).focusedIndex = 1 ∧
    focusInv (deleteGameFrontend
      ⟨[⟨"a", "a", "/games/a/", false⟩, ⟨"b", "b", "/games/b/", true⟩], 1⟩ 1 true true) := by
  have hinv : focusInv
      ⟨[⟨"a", "a", "/games/a/", false⟩, ⟨"b", "b", "/games/b/", true⟩], 1⟩ := by
    constructor
    · decide
    · intro _
      decide
  have h := focusedIndex_bounds
    ⟨[⟨"a", "a", "/games/a/", false⟩, ⟨"b", "b", "/games/b/", true⟩], 1⟩
    99 1 true true hinv
  refine ⟨?_, h.2.2⟩
  rw [h.1 (by decide)]
  decide

/-- Helper: reading the supplied physical value back out of the padded
button list. -/
theorem getD_replicate_append (n : Nat) (p : Bool) :
    (List.replicate n false ++ [p]).getD n false = p := by
  induction n with
  | zero => rfl
  | succ k ih => simp [List.replicate_succ, ih]

/-- Helper: with the configurator closed, the loop body for one valid
button detects exactly the edge of the snapshot against this frame's
pressed value, stores the pressed value in the snapshot, and does not
return early. -/
theorem processButtonOne_edge_flags (dom : DomEnv) (g : Group) (bname : String)
    (bm : BtnMap) (buttons : List Bool) (prev st : ManagerState)
    (hc : dom.configuratorOpen = false) (hv : bm.gamepadButton < buttons.length) :
    (processButtonOne dom g bname bm buttons prev st).edge =
      edgeOf (truthy (prev.flags bname)) (buttons.getD bm.gamepadButton false) ∧
    (processButtonOne dom g bname bm buttons prev st).state.flags bname =
      some (.flag (buttons.getD bm.gamepadButton false)) ∧
    (processButtonOne dom g bname bm buttons prev st).earlyReturn = false := by
  simp only [processButtonOne, if_pos hv, hc, Bool.false_and, Bool.and_false,
    Bool.false_eq_true, if_false, edgeOf]
  split_ifs <;> simp_all [setFlag]

/-- Helper: the frame-by-frame run equals the stateless edge
recomputation when the configurator is closed on every frame. -/
theorem processButtonFrames_eq_edgeSpec (g : Group) (bname : String) (bm : BtnMap)
    (frames : List (DomEnv × Bool)) (st0 : ManagerState)
    (hc : ∀ f ∈ frames, (f.1).configuratorOpen = false) :
    processButtonFrames g bname bm st0 frames =
      edgeSpec (truthy (st0.flags bname)) (frames.map (·.2)) := by
  induction frames generalizing st0 with
  | nil => rfl
  | cons f rest ih =>
    obtain ⟨dom, pressed⟩ := f
    have hc0 : dom.configuratorOpen = false := hc _ (List.mem_cons_self _ _)
    have hv : bm.gamepadButton < (List.replicate bm.gamepadButton false ++ [pressed]).length := by
      simp
    have h := processButtonOne_edge_flags dom g bname bm
      (List.replicate bm.gamepadButton false ++ [pressed]) st0 st0 hc0 hv
    rw [getD_replicate_append] at h
    simp only [processButtonFrames, edgeSpec, List.map_cons]
    rw [h.1, ih _ (fun x hx => hc x (List.mem_cons_of_mem _ hx))]
    rw [show truthy ((processButtonOne dom g bname bm
        (List.replicate bm.gamepadButton false ++ [pressed]) st0 st0).state.flags bname) =
      pressed from by rw [h.2.1]; rfl]

/-- Helper: the spec fires one rising edge per false-to-true transition
and one falling edge per true-to-false transition, and no edge when the
value repeats. -/
theorem edgeSpec_counts (was : Bool) (l : List Bool) :
    (edgeSpec was l).count (some Edge.rising) = countRises was l ∧
    (edgeSpec was l).count (some Edge.falling) = countFalls was l := by
  induction l generalizing was with
  | nil => exact ⟨rfl, rfl⟩
  | cons b rest ih =>
    have h := ih b
    cases was <;> cases b <;>
      simp [edgeSpec, edgeOf, countRises, countFalls, List.count_cons, h.1, h.2] <;>
      omega

/-- Claim C6, amended: for every mapped logical button and every
sequence of per-frame pressed states in which the controller
configurator is open on no frame, the edge detector of
processButtonGroup fires the press handling exactly once per
false-to-true transition of the stored snapshot and the release handling
exactly once per true-to-false transition, and never fires while the
value stays constant across consecutive frames.  The configurator
restriction is forced: the configurator-close branch returns early and
skips the snapshot update, so the same held press is detected again on
the next frame (see the counterexample). -/
theorem buttonEdges_exact (g : Group) (bname : String) (bm : BtnMap)
    (frames : List (DomEnv × Bool)) (st0 : ManagerState)
    (hc : ∀ f ∈ frames, (f.1).configuratorOpen = false) :
    processButtonFrames g bname bm st0 frames =
      edgeSpec (truthy (st0.flags bname)) (frames.map (·.2)) ∧
    (processButtonFrames g bname bm st0 frames).count (some Edge.rising) =
      countRises (truthy (st0.flags bname)) (frames.map (·.2)) ∧
    (processButtonFrames g bname bm st0 frames).count (some Edge.falling) =
      countFalls (truthy (st0.flags bname)) (frames.map (·.2)) := by
  have h := processButtonFrames_eq_edgeSpec g bname bm frames st0 hc
  have hcnt := edgeSpec_counts (truthy (st0.flags bname)) (frames.map (·.2))
  exact ⟨h, by rw [h]; exact hcnt.1, by rw [h]; exact hcnt.2⟩

/-- Witness for C6 as amended: a hold of two frames followed by a
release, in the launcher with everything closed, yields exactly one
rising and one falling edge. -/
theorem buttonEdges_exact_witness :
    processButtonFrames Group.dpad "up" ⟨12, "ArrowUp", 38⟩ initManagerState
      [(⟨false, false, false, false, false, 0, 0, true⟩, true),
        (⟨false, false, false, false, false, 0, 0, true⟩, true),
        (⟨false, false, false, false, false, 0, 0, true⟩, false)] =
      [some Edge.rising, none, some Edge.falling] ∧
    (processButtonFrames Group.dpad "up" ⟨12, "ArrowUp", 38⟩ initManagerState
      [(⟨false, false, false, false, false, 0, 0, true⟩, true),
        (⟨false, false, false, false, false, 0, 0, true⟩, true),
        (⟨false, false, false, false, false, 0, 0, true⟩, false)]).count
      (some Edge.rising) = 1 := by
  have h := buttonEdges_exact Group.dpad "up" ⟨12, "ArrowUp", 38⟩
    [(⟨false, false, false, false, false, 0, 0, true⟩, true),
      (⟨false, false, false, false, false, 0, 0, true⟩, true),
      (⟨false, false, false, false, false, 0, 0, true⟩, false)] initManagerState
    (by intro f hf; fin_cases hf <;> rfl)
  refine ⟨?_, ?_⟩
  · rw [h.1]; decide
  · rw [h.2.1]; decide

/-- Counterexample for C6 as stated: with the configurator open, a B
press held for two frames while playing fires the press handling twice,
once closing the configurator and once dispatching a keydown to the
game on the second frame although the pressed state stayed true across
both frames; the same run also fires keyup release events for the two
stick buttons although they were never pressed (their initial snapshot
is an object that counts as pressed). -/
theorem buttonEdges_counterexample :
    (processInputs ⟨true, false, false, true, false, 0, 0, true⟩ defaultMapping
        [false, true, false, false, false, false, false, false, false, false,
          false, false, false, false, false, false, false] [] initManagerState).1 =
      [Action.closeConfigurator, Action.keyEvent "keyup" "f" 70,
        Action.keyEvent "keyup" "g" 71] ∧
    (processInputs ⟨true, false, false, false, false, 0, 0, true⟩ defaultMapping
        [false, true, false, false, false, false, false, false, false, false,
          false, false, false, false, false, false, false] []
        (processInputs ⟨true, false, false, true, false, 0, 0, true⟩ defaultMapping
          [false, true, false, false, false, false, false, false, false, false,
            false, false, false, false, false, false, false] [] initManagerState).2).1 =
      [Action.keyEvent "keydown" "c" 67] := by
  constructor <;> decide

/-- Helper: reading back the written entry. -/
theorem setFlag_flags_self (s : ManagerState) (k : String) (v : BSVal) :
    (setFlag s k v).flags k = some v := by
  simp [setFlag]

/-- Helper: writes to other entries are invisible. -/
theorem setFlag_flags_ne (s : ManagerState) (k : String) (v : BSVal) (k2 : String)
    (h : k2 ≠ k) : (setFlag s k v).flags k2 = s.flags k2 := by
  simp [setFlag, h]

/-- Helper: reading the dictionary commutes with a conditional state. -/
theorem flags_ite (c : Prop) [Decidable c] (a b : ManagerState) (k : String) :
    (if c then a else b).flags k = if c then a.flags k else b.flags k := by
  split_ifs <;> rfl

/-- Helper: the focus initializers leave the dictionary alone. -/
theorem initOSDFocus_flags (dom : DomEnv) (st : ManagerState) :
    (initOSDFocus dom st).flags = st.flags := by
  simp only [initOSDFocus]
  split_ifs <;> rfl

/-- Helper: likewise for the game menu. -/
theorem initGameMenuFocus_flags (dom : DomEnv) (st : ManagerState) :
    (initGameMenuFocus dom st).flags = st.flags := by
  simp only [initGameMenuFocus]
  split_ifs <;> rfl

/-- Helper: the frame-start bookkeeping leaves the dictionary alone. -/
theorem frameInit_flags (dom : DomEnv) (st : ManagerState) :
    (frameInit dom st).flags = st.flags := by
  simp only [frameInit]
  split_ifs <;> simp [initOSDFocus_flags, initGameMenuFocus_flags]

/-- Helper: a swallowed button performs no action, never returns early,
and only stores the snapshot. -/
theorem processButtonOne_swallow (dom : DomEnv) (g : Group) (bname : String)
    (bm : BtnMap) (buttons : List Bool) (prev st : ManagerState)
    (hs : shouldSwallowFor dom = true) :
    processButtonOne dom g bname bm buttons prev st =
      ⟨if bm.gamepadButton < buttons.length then
          edgeOf (truthy (prev.flags bname)) (buttons.getD bm.gamepadButton false)
        else none,
        [], updOne buttons st (bname, bm), false⟩ := by
  simp only [processButtonOne, hs, edgeOf, updOne]
  split_ifs <;> simp_all

/-- Helper: a swallowed group loop performs no action and folds the
snapshot updates. -/
theorem processButtonList_swallow (dom : DomEnv) (g : Group) (buttons : List Bool)
    (prev : ManagerState) (hs : shouldSwallowFor dom = true) :
    ∀ (items : List (String × BtnMap)) (st : ManagerState),
      processButtonList dom g buttons prev items st =
        ([], items.foldl (updOne buttons) st) := by
  intro items
  induction items with
  | nil => intro st; rfl
  | cons p rest ih =>
    intro st
    obtain ⟨bn, bm⟩ := p
    simp only [processButtonList, processButtonOne_swallow dom g bn bm buttons prev st hs,
      List.foldl_cons, ih]
    simp

/-- Helper: navigation routing never touches the dictionary. -/
theorem routeNavigation_flags (dom : DomEnv) (st : ManagerState) (d : Dir) :
    (routeNavigation dom st d).2.flags = st.flags := by
  simp only [routeNavigation, handleGameMenuNavigation, handleOSDNavigation,
    handleLauncherNavigation]
  split_ifs <;> cases d <;> rfl

/-- Helper: one swallowed stick records its digital state and routes
nothing. -/
theorem processAnalogToDigital_swallow (dom : DomEnv) (stick : Rat × Rat)
    (stickName : String) (st : ManagerState) (hs : shouldSwallowFor dom = true) :
    processAnalogToDigital dom stick stickName st =
      ([], setFlag st stickName (.stick (stickVal stick))) := by
  simp only [processAnalogToDigital, hs, stickVal]
  rw [if_true]

/-- Helper: a swallowed analog pass performs no action and records only
the stick entries. -/
theorem processAnalogSticks_swallow (dom : DomEnv) (axes : List Rat) (st : ManagerState)
    (hs : shouldSwallowFor dom = true) :
    processAnalogSticks dom axes st = ([], analogUpdSwallow axes st) := by
  simp only [processAnalogSticks, analogUpdSwallow]
  split_ifs with h
  · rfl
  · rw [processAnalogToDigital_swallow dom _ _ _ hs,
      processAnalogToDigital_swallow dom _ _ _ hs]
    rfl

/-- Helper: the launcher controls do nothing while swallowed. -/
theorem processLauncherControls_swallow (dom : DomEnv) (m : Mapping) (buttons : List Bool)
    (prev st : ManagerState) (hs : shouldSwallowFor dom = true) :
    processLauncherControls dom m buttons prev st = ([], st) := by
  simp only [processLauncherControls, hs]
  rw [if_true, ite_self, ite_self]

/-- Helper: the OSD controls do nothing while swallowed. -/
theorem processOSDControls_swallow (dom : DomEnv) (m : Mapping) (buttons : List Bool)
    (prev st : ManagerState) (hs : shouldSwallowFor dom = true) :
    processOSDControls dom m buttons prev st = ([], st) := by
  simp only [processOSDControls, hs]
  rw [if_true]

/-- Helper: the game-menu controls do nothing while swallowed. -/
theorem processGameMenuControls_swallow (dom : DomEnv) (m : Mapping) (buttons : List Bool)
    (prev st : ManagerState) (hs : shouldSwallowFor dom = true) :
    processGameMenuControls dom m buttons prev st = ([], st) := by
  simp only [processGameMenuControls, hs]
  rw [if_true]

/-- Helper: the whole swallowed frame, as one equation. -/
theorem processInputs_swallow_eq (dom : DomEnv) (m : Mapping) (buttons : List Bool)
    (axes : List Rat) (st : ManagerState) (hs : shouldSwallowFor dom = true) :
    processInputs dom m buttons axes st =
      ([], analogUpdSwallow axes
        ((groupButtons m Group.special).foldl (updOne buttons)
          ((groupButtons m Group.shoulder).foldl (updOne buttons)
            ((groupButtons m Group.face).foldl (updOne buttons)
              ((groupButtons m Group.dpad).foldl (updOne buttons)
                (frameInit dom st)))))) := by
  simp only [processInputs, processButtonGroup,
    processButtonList_swallow dom _ buttons st hs,
    processAnalogSticks_swallow dom axes _ hs,
    processLauncherControls_swallow dom m buttons st _ hs,
    processOSDControls_swallow dom m buttons st _ hs,
    processGameMenuControls_swallow dom m buttons st _ hs,
    List.nil_append, List.append_nil, frameInit]

/-- Helper: a swallowed update leaves other entries alone. -/
theorem updOne_flags_ne (buttons : List Bool) (s : ManagerState) (k2 : String)
    (p : String × BtnMap) (h : k2 ≠ p.1) :
    (updOne buttons s p).flags k2 = s.flags k2 := by
  simp only [updOne]
  split_ifs
  · exact setFlag_flags_ne _ _ _ _ h
  · rfl

/-- Helper: a swallowed update stores the pressed value of a mapped
index. -/
theorem updOne_flags_self (buttons : List Bool) (s : ManagerState) (k : String)
    (bm : BtnMap) (hv : bm.gamepadButton < buttons.length) :
    (updOne buttons s (k, bm)).flags k =
      some (.flag (buttons.getD bm.gamepadButton false)) := by
  simp only [updOne, if_pos hv]
  exact setFlag_flags_self _ _ _

/-- Claim C7: while live testing is active (testing toggle on with the
configurator open), a frame performs no action at all for any button or
stick state of any controller: no synthetic key event toward the game,
no launcher navigation or launch, no overlay navigation, activation,
open or close; the frame only updates the stored snapshots (still
recording each mapped button's pressed value, as the visualization
reads). -/
theorem gamepad_testing_swallows (dom : DomEnv) (m : Mapping) (buttons : List Bool)
    (axes : List Rat) (st : ManagerState)
    (ht : dom.testingMode = true) (hc : dom.configuratorOpen = true) :
    (processInputs dom m buttons axes st).1 = [] ∧
    (∀ g bname bm, (bname, bm) ∈ groupButtons m g →
      bm.gamepadButton < buttons.length →
      bname ≠ "leftStick" → bname ≠ "rightStick" →
      (processInputs dom m buttons axes st).2.flags bname =
        some (.flag (buttons.getD bm.gamepadButton false))) := by
  have hs : shouldSwallowFor dom = true := by
    simp [shouldSwallowFor, isTestingActive, ht, hc]
  have he := processInputs_swallow_eq dom m buttons axes st hs
  constructor
  · rw [he]
  · intro g bname bm hmem hv h1 h2
    rw [he]
    have ha : ∀ s : ManagerState, (analogUpdSwallow axes s).flags bname = s.flags bname := by
      intro s
      simp only [analogUpdSwallow]
      split_ifs
      · rfl
      · rw [setFlag_flags_ne _ _ _ _ h2, setFlag_flags_ne _ _ _ _ h1]
    simp only []
    rw [ha]
    cases g <;>
      simp only [groupButtons, List.mem_cons, List.not_mem_nil, or_false,
        Prod.mk.injEq] at hmem <;>
      [rcases hmem with ⟨rfl, rfl⟩ | ⟨rfl, rfl⟩ | ⟨rfl, rfl⟩ | ⟨rfl, rfl⟩;
        rcases hmem with ⟨rfl, rfl⟩ | ⟨rfl, rfl⟩ | ⟨rfl, rfl⟩ | ⟨rfl, rfl⟩;
        rcases hmem with ⟨rfl, rfl⟩ | ⟨rfl, rfl⟩ | ⟨rfl, rfl⟩ | ⟨rfl, rfl⟩;
        rcases hmem with ⟨rfl, rfl⟩ | ⟨rfl, rfl⟩ | ⟨rfl, rfl⟩ | ⟨rfl, rfl⟩ | ⟨rfl, rfl⟩] <;>
      simp only [groupButtons, List.foldl_cons, List.foldl_nil] <;>
      simp [updOne_flags_ne, updOne_flags_self, hv]

/-- Witness for C7: with testing active, a frame with the B button held
in the launcher performs no action and records the press in the
snapshot. -/
theorem gamepad_testing_swallows_witness :
    (processInputs ⟨false, false, false, true, true, 0, 0, true⟩ defaultMapping
        [false, true] [] initManagerState).1 = [] ∧
    (processInputs ⟨false, false, false, true, true, 0, 0, true⟩ defaultMapping
        [false, true] [] initManagerState).2.flags "btnRight" =
      some (.flag true) := by
  have h := gamepad_testing_swallows ⟨false, false, false, true, true, 0, 0, true⟩
    defaultMapping [false, true] [] initManagerState rfl rfl
  refine ⟨h.1, ?_⟩
  have h2 := h.2 Group.face "btnRight" defaultMapping.face.btnRight
    (by simp [groupButtons]) (by decide) (by decide) (by decide)
  rw [h2]
  rfl

/-- Witness for C10: uploading three arbitrary non-PNG bytes to an
existing game. -/
theorem thumbnail_upload_witness :
    handleApiGames demoFS "POST" ["", "api", "games", "puzzle_box", "thumbnail"] [9, 9, 9] =
      some (200, writeThumb demoFS "puzzle_box" [9, 9, 9]) ∧
    (writeThumb demoFS "puzzle_box" [9, 9, 9]).thumbBytes "puzzle_box" = some [9, 9, 9] := by
  have h := thumbnail_upload demoFS "puzzle_box" [9, 9, 9]
    (fun a b => decide (a ≤ b)) (by decide)
  exact ⟨h.1, h.2.1⟩

end CMG
